import Mathlib

/- A shallow embedding of the S3 passthrough nodestore backend
   (sentry_nodestore_s3/backend.py): a dual-store blob backend pairing an
   object store (S3) with a relational index (postgres), with optional
   zstd compression and per-operation passthrough to a secondary backend. -/

namespace NodestoreS3

/-- Byte strings, modelled as lists of naturals. -/
abbrev Bytes := List Nat

/-- A point in time: calendar date plus a sub-day component `sec`. Mirrors a
`datetime` value; key derivation uses only the date part. -/
structure Timestamp where
  year : Nat
  month : Nat
  day : Nat
  sec : Nat
deriving DecidableEq

/-- The calendar-date part of a timestamp. -/
def dateOf (t : Timestamp) : Nat × Nat × Nat := (t.year, t.month, t.day)

/-- Zero-pad the decimal rendering of `n` to width `w`, as `strftime` does. -/
def padNum (w n : Nat) : String :=
  let s := toString n
  String.mk (List.replicate (w - s.length) '0') ++ s

/-- Models `timestamp.strftime("%Y/%m/%d")` (backend.py line 105). -/
def formatDate (t : Timestamp) : String :=
  padNum 4 t.year ++ "/" ++ padNum 2 t.month ++ "/" ++ padNum 2 t.day

/-- A stored S3 object: the body plus its ContentEncoding tag. -/
structure S3Object where
  body : Bytes
  content_encoding : String
deriving DecidableEq

/-- A compression codec, an encode/decode pair (`sentry.utils.codecs.Codec`).
The zstd implementation is external to this repository, so the codec is a
parameter; claims that need it assume the round-trip law the spec states
for every registered codec. -/
structure Codec where
  encode : Bytes → Bytes
  decode : Bytes → Bytes

/-- Models `compression_strategies` (backend.py lines 15-17): a dict mapping
the single name "zstd" to the configured codec; `.get` on any other name
(including the empty ContentEncoding) yields None. -/
def compression_strategies (c : Codec) (name : String) : Option Codec :=
  if name = "zstd" then some c else none

/-- The backend configuration recorded by `__init__` (lines 19-48): the three
passthrough flags, the compression switch, and the bucket path. -/
structure Config where
  delete_through : Bool
  write_through : Bool
  read_through : Bool
  compression : Bool
  bucket_path : String

/-- The `self.compression` field as `__init__` sets it (lines 42-45):
"zstd" when compression is on, otherwise None. -/
def selfCompression (cfg : Config) : Option String :=
  if cfg.compression then some "zstd" else none

/-- Association-list lookup, first binding wins: models keyed lookup in the
relational table, the bucket, and the secondary store. -/
def assocLookup {α : Type} (l : List (String × α)) (k : String) : Option α :=
  match l with
  | [] => none
  | (k1, v) :: rest => if k1 = k then some v else assocLookup rest k

/-- Remove every binding for key `k`. -/
def removeKey {α : Type} (l : List (String × α)) (k : String) :
    List (String × α) :=
  l.filter (fun p => decide (p.1 ≠ k))

/-- Overwrite the binding for `k` (last-writer-wins put). -/
def putKey {α : Type} (l : List (String × α)) (k : String) (v : α) :
    List (String × α) :=
  (k, v) :: removeKey l k

/-- The mutable world the backend touches: the relational index, the S3
bucket, the secondary (Django) backend's store, and the log of
cache-invalidation notices issued so far. Exceptions in Python do not roll
effects back, so every operation also returns the state it reached. -/
structure BState where
  db : List (String × Timestamp)
  s3 : List (String × S3Object)
  secondary : List (String × Bytes)
  invalidations : List (List String)
deriving DecidableEq

/-- Models `insert_id_and_timestamp` (lines 72-83): INSERT ... ON CONFLICT
(id) DO NOTHING — inserts when the id has no row, no-op when it already has
one. The `datetime.utcnow()` read at line 74 is the argument `t`. -/
def insert_id_and_timestamp (t : Timestamp) (id : String) (s : BState) :
    BState :=
  match assocLookup s.db id with
  | some _ => s
  | none => { s with db := (id, t) :: s.db }

/-- Models `delete_id` (lines 85-91): DELETE FROM nodestore_node WHERE
id = %s. -/
def delete_id (id : String) (s : BState) : BState :=
  { s with db := removeKey s.db id }

/-- Models `fetch_timestamp` (lines 93-101): single-row SELECT of the
timestamp for the id. -/
def fetch_timestamp (s : BState) (id : String) : Option Timestamp :=
  assocLookup s.db id

/-- Models `__construct_s3_key` (lines 103-106): `[bucket_path/]YYYY/MM/DD/id`.
The `if self.bucket_path` test is Python truthiness, so the empty path
behaves like None. -/
def construct_s3_key (cfg : Config) (id : String) (t : Timestamp) : String :=
  if cfg.bucket_path ≠ "" then
    cfg.bucket_path ++ "/" ++ formatDate t ++ "/" ++ id
  else formatDate t ++ "/" ++ id

/-- Models `client.put_object`: unconditional overwrite at the key. -/
def put_object (key : String) (obj : S3Object) (s : BState) : BState :=
  { s with s3 := putKey s.s3 key obj }

/-- Models `client.get_object`, with the NoSuchKey outcome as `none`. -/
def get_object (s : BState) (key : String) : Option S3Object :=
  assocLookup s.s3 key

/-- Models `client.delete_object`: idempotent delete at the key. -/
def delete_object (key : String) (s : BState) : BState :=
  { s with s3 := removeKey s.s3 key }

/-- Models `super()._get_bytes` of the secondary DjangoNodeStorage backend,
which is external to this repository; modelled at the interface boundary the
spec gives (a keyed byte store). -/
def super_get_bytes (s : BState) (id : String) : Option Bytes :=
  assocLookup s.secondary id

/-- Models `super()._set_bytes` of the secondary backend. -/
def super_set_bytes (id : String) (data : Bytes) (s : BState) : BState :=
  { s with secondary := putKey s.secondary id data }

/-- Models `super().delete` of the secondary backend. -/
def super_delete (id : String) (s : BState) : BState :=
  { s with secondary := removeKey s.secondary id }

/-- Models `super().delete_multi` of the secondary backend. -/
def super_delete_multi (ids : List String) (s : BState) : BState :=
  { s with secondary := ids.foldl (fun l id => removeKey l id) s.secondary }

/-- Models `_delete_cache_item` / `_delete_cache_items` from the host
NodeStorage (external): each call is logged as the batch of ids it
invalidates. -/
def delete_cache_items (ids : List String) (s : BState) : BState :=
  { s with invalidations := s.invalidations ++ [ids] }

/-- Models `__write_to_bucket` (lines 108-128). The two `datetime.utcnow()`
calls — line 74 inside `insert_id_and_timestamp`, line 122 at key
construction — are the separate arguments `t1` and `t2`. The inner `none`
branch of the registry lookup is unreachable because `selfCompression` only
ever yields "zstd", which the registry contains. -/
def write_to_bucket (cfg : Config) (c : Codec) (t1 t2 : Timestamp)
    (id : String) (data : Bytes) (s : BState) : BState :=
  let s1 := insert_id_and_timestamp t1 id s
  let be : Bytes × String :=
    match selfCompression cfg with
    | none => (data, "")
    | some name =>
      match compression_strategies c name with
      | some codec =>
        let compressed := codec.encode data
        if compressed.length ≤ data.length then (compressed, name)
        else (data, "")
      | none => (data, "")
  put_object (construct_s3_key cfg id t2) ⟨be.1, be.2⟩ s1

/-- Models `__delete_from_bucket` (lines 130-142): it deletes the index row
FIRST, then fetches the timestamp (which that deletion has just removed)
and raises ValueError when it is absent; the error value carries the
message. -/
def delete_from_bucket (cfg : Config) (id : String) (s : BState) :
    Except String Unit × BState :=
  let s1 := delete_id id s
  match fetch_timestamp s1 id with
  | none => (Except.error ("No timestamp found for ID " ++ id), s1)
  | some t => (Except.ok (), delete_object (construct_s3_key cfg id t) s1)

/-- Models `__read_from_bucket` (lines 144-161): fetch the timestamp (raise
when absent), derive the key, fetch the object (NoSuchKey caught as None),
then decode by the recorded ContentEncoding when a codec matches. -/
def read_from_bucket (cfg : Config) (c : Codec) (id : String) (s : BState) :
    Except String (Option Bytes) :=
  match fetch_timestamp s id with
  | none => Except.error ("No timestamp found for ID " ++ id)
  | some t =>
    match get_object s (construct_s3_key cfg id t) with
    | none => Except.ok none
    | some obj =>
      match compression_strategies c obj.content_encoding with
      | some codec => Except.ok (some (codec.decode obj.body))
      | none => Except.ok (some obj.body)

/-- Models Python `or` on a `bytes | None` value: None and the empty byte
string are falsy, so either selects the right operand. -/
def pyOr (a b : Option Bytes) : Option Bytes :=
  match a with
  | none => b
  | some bs => if bs = [] then b else some bs

/-- Models `_get_bytes` (lines 170-173): with read_through, fall back to the
secondary backend whenever the primary result is falsy; an exception from
`__read_from_bucket` propagates before the fallback is consulted. -/
def get_bytes (cfg : Config) (c : Codec) (id : String) (s : BState) :
    Except String (Option Bytes) :=
  if cfg.read_through then
    match read_from_bucket cfg c id s with
    | Except.error e => Except.error e
    | Except.ok v => Except.ok (pyOr v (super_get_bytes s id))
  else read_from_bucket cfg c id s

/-- Models `_set_bytes` (lines 175-178): optional passthrough write, then
the primary write. -/
def set_bytes (cfg : Config) (c : Codec) (t1 t2 : Timestamp) (id : String)
    (data : Bytes) (s : BState) : BState :=
  let s1 := if cfg.write_through then super_set_bytes id data s else s
  write_to_bucket cfg c t1 t2 id data s1

/-- Models `delete` (lines 164-168): optional passthrough delete, then the
primary delete, then the cache invalidation — which an exception skips. -/
def delete (cfg : Config) (id : String) (s : BState) :
    Except String Unit × BState :=
  let s1 := if cfg.delete_through then super_delete id s else s
  match delete_from_bucket cfg id s1 with
  | (Except.error e, s2) => (Except.error e, s2)
  | (Except.ok _, s2) => (Except.ok (), delete_cache_items [id] s2)

/-- The per-id loop inside `delete_multi` (lines 183-184): an exception
aborts the loop, keeping the state reached so far. -/
def deleteLoop (cfg : Config) (ids : List String) (s : BState) :
    Except String Unit × BState :=
  match ids with
  | [] => (Except.ok (), s)
  | id :: rest =>
    match delete_from_bucket cfg id s with
    | (Except.ok _, s1) => deleteLoop cfg rest s1
    | (Except.error e, s1) => (Except.error e, s1)

/-- Models `delete_multi` (lines 180-185): optional passthrough, the per-id
loop, then one batched cache invalidation — which an exception skips. -/
def delete_multi (cfg : Config) (ids : List String) (s : BState) :
    Except String Unit × BState :=
  let s1 := if cfg.delete_through then super_delete_multi ids s else s
  match deleteLoop cfg ids s1 with
  | (Except.ok _, s2) => (Except.ok (), delete_cache_items ids s2)
  | (Except.error e, s2) => (Except.error e, s2)

/-- The identity codec, used to instantiate concrete scenarios; it
satisfies the round-trip law. -/
def idCodec : Codec := ⟨fun b => b, fun b => b⟩

/-- A configuration with all passthrough flags off, compression on, no
bucket path. -/
def cfg0 : Config := ⟨false, false, false, true, ""⟩

/-- The configuration `cfg0` with read_through enabled. -/
def cfgRT : Config := ⟨false, false, true, true, ""⟩

def t0 : Timestamp := ⟨2024, 1, 1, 0⟩

def tEve : Timestamp := ⟨2024, 12, 31, 86399⟩

def tNew : Timestamp := ⟨2025, 1, 1, 0⟩

/-- The empty world. -/
def st0 : BState := ⟨[], [], [], []⟩

/-- A world holding one indexed id with its blob at the derived key. -/
def st1 : BState := ⟨[("a", t0)], [("2024/01/01/a", ⟨[1, 2, 3], ""⟩)], [], []⟩

/-- A world where only the secondary backend holds a value under "a". -/
def stSec : BState := ⟨[], [], [("a", [9])], []⟩

/-- A world where "a" is indexed but its blob is absent, while the
secondary backend holds a value. -/
def st4 : BState := ⟨[("a", t0)], [], [("a", [7])], []⟩

/-- A world where "a" is indexed with an empty blob stored at its key,
while the secondary backend holds a value. -/
def st9 : BState :=
  ⟨[("a", t0)], [(construct_s3_key cfgRT "a" t0, ⟨[], ""⟩)], [("a", [5])], []⟩

/-- A world indexing "x" at `t0`. -/
def stD1 : BState := ⟨[("x", t0)], [], [], []⟩

/-- A world indexing "a" and "b". -/
def stB : BState := ⟨[("a", t0), ("b", tNew)], [], [], []⟩

deriving instance DecidableEq for Except

theorem assocLookup_putKey_self {α : Type} (l : List (String × α))
    (k : String) (v : α) : assocLookup (putKey l k v) k = some v := by
  simp [putKey, assocLookup]

theorem assocLookup_removeKey_self {α : Type} (l : List (String × α))
    (k : String) : assocLookup (removeKey l k) k = none := by
  induction l with
  | nil => rfl
  | cons p rest ih =>
    obtain ⟨k1, v⟩ := p
    by_cases h : k1 = k
    · simpa [removeKey, List.filter_cons, h] using ih
    · simpa [removeKey, List.filter_cons, h, assocLookup] using ih

theorem assocLookup_removeKey_ne {α : Type} (l : List (String × α))
    (k k1 : String) (h : k1 ≠ k) :
    assocLookup (removeKey l k) k1 = assocLookup l k1 := by
  induction l with
  | nil => rfl
  | cons p rest ih =>
    obtain ⟨k2, v⟩ := p
    by_cases h2 : k2 = k
    · subst h2
      have hne : ¬ (k2 = k1) := fun e => h e.symm
      simp [removeKey, List.filter_cons, assocLookup, hne] at ih ⊢
      exact ih
    · simp [removeKey, List.filter_cons, h2, assocLookup] at ih ⊢
      by_cases h3 : k2 = k1 <;> simp [h3, ih]

theorem construct_s3_key_congr (cfg : Config) (id : String)
    {t1 t2 : Timestamp} (h : dateOf t1 = dateOf t2) :
    construct_s3_key cfg id t1 = construct_s3_key cfg id t2 := by
  have hy : t1.year = t2.year := congrArg Prod.fst h
  have hm : t1.month = t2.month := congrArg (fun p => p.2.1) h
  have hd : t1.day = t2.day := congrArg (fun p => p.2.2) h
  simp [construct_s3_key, formatDate, hy, hm, hd]

/-- C1: the claim says delete(id) looks the timestamp up before removing the
index entry and then deletes the blob and, last, the index entry. The code
does the opposite: at an id whose index entry and blob both exist, `delete`
removes the index row first, so the subsequent timestamp lookup fails and
the call raises the missing-timestamp fault, leaving the blob in place and
issuing no cache invalidation. -/
theorem C1_delete_order_code_bug :
    (delete cfg0 "a" st1).1 = Except.error "No timestamp found for ID a"
    ∧ (delete cfg0 "a" st1).2.db = []
    ∧ (delete cfg0 "a" st1).2.s3 = st1.s3
    ∧ (delete cfg0 "a" st1).2.invalidations = [] := by decide

/-- C2: with all passthrough flags off and the id not yet stored, a read
performed after a write returns exactly the written payload, assuming the
codec round-trip law and that the two current-time reads inside the write
(index insert at line 74, key construction at line 122) fall on the same
calendar date. -/
theorem C2_write_read_round_trip (cfg : Config) (c : Codec)
    (t1 t2 : Timestamp) (id : String) (data : Bytes) (s : BState)
    (hrt : ∀ x, c.decode (c.encode x) = x)
    (hr : cfg.read_through = false) (hw : cfg.write_through = false)
    (_hd : cfg.delete_through = false)
    (habs : fetch_timestamp s id = none)
    (hdate : dateOf t1 = dateOf t2) :
    get_bytes cfg c id (set_bytes cfg c t1 t2 id data s)
      = Except.ok (some data) := by
  have hkey : construct_s3_key cfg id t1 = construct_s3_key cfg id t2 :=
    construct_s3_key_congr cfg id hdate
  have habs1 : assocLookup s.db id = none := habs
  by_cases hc : cfg.compression
  · by_cases hlen : (c.encode data).length ≤ data.length
    · simp [get_bytes, set_bytes, write_to_bucket, read_from_bucket,
        insert_id_and_timestamp, fetch_timestamp, put_object, get_object,
        selfCompression, compression_strategies, assocLookup, putKey,
        hr, hw, hc, hlen, habs1, hkey, hrt]
    · simp [get_bytes, set_bytes, write_to_bucket, read_from_bucket,
        insert_id_and_timestamp, fetch_timestamp, put_object, get_object,
        selfCompression, compression_strategies, assocLookup, putKey,
        hr, hw, hc, hlen, habs1, hkey]
  · simp [get_bytes, set_bytes, write_to_bucket, read_from_bucket,
      insert_id_and_timestamp, fetch_timestamp, put_object, get_object,
      selfCompression, compression_strategies, assocLookup, putKey,
      hr, hw, hc, habs1, hkey]

/-- Witness for C2 at a concrete input: flags off, compression on, identity
codec, fresh id. -/
theorem C2_write_read_round_trip_witness :
    get_bytes cfg0 idCodec "a" (set_bytes cfg0 idCodec t0 t0 "a" [1, 2] st0)
      = Except.ok (some [1, 2]) :=
  C2_write_read_round_trip cfg0 idCodec t0 t0 "a" [1, 2] st0
    (fun _ => rfl) rfl rfl rfl rfl rfl

/-- C3 counterexample: the claim says a read of an id with no index entry
returns not-found when read_through is off and delegates to the secondary
backend when it is on. In the code `__read_from_bucket` raises the
missing-timestamp fault before either can happen: with read_through off the
result is an error, not the no-value result, and with read_through on the
error propagates before the fallback, so a value held by the secondary
backend is never returned. -/
theorem C3_missing_id_read_counterexample :
    get_bytes cfg0 idCodec "a" st0
        = Except.error "No timestamp found for ID a"
    ∧ get_bytes cfg0 idCodec "a" st0 ≠ Except.ok none
    ∧ get_bytes cfgRT idCodec "a" stSec
        = Except.error "No timestamp found for ID a"
    ∧ get_bytes cfgRT idCodec "a" stSec ≠ Except.ok (some [9]) := by decide

/-- C3 amended: for every id with no index entry, read(id) raises the
missing-timestamp fault (ValueError) for both values of read_through; the
secondary backend is not consulted in this branch. -/
theorem C3_missing_id_read_amended (cfg : Config) (c : Codec) (id : String)
    (s : BState) (habs : fetch_timestamp s id = none) :
    get_bytes cfg c id s
      = Except.error ("No timestamp found for ID " ++ id) := by
  by_cases hr : cfg.read_through <;>
    simp [get_bytes, read_from_bucket, habs, hr]

/-- Witness for the amended C3 at a concrete input with read_through on and
the secondary backend holding a value. -/
theorem C3_missing_id_read_amended_witness :
    get_bytes cfgRT idCodec "a" stSec
      = Except.error ("No timestamp found for ID " ++ "a") :=
  C3_missing_id_read_amended cfgRT idCodec "a" stSec rfl

/-- C4 counterexample: the claim says that when the index entry exists but
the blob is absent, read returns not-found without consulting the secondary
backend for both values of read_through. In the code, with read_through on,
the falsy primary result falls through to the secondary backend, whose
value is returned. -/
theorem C4_blob_absent_counterexample :
    get_bytes cfgRT idCodec "a" st4 = Except.ok (some [7])
    ∧ get_bytes cfgRT idCodec "a" st4 ≠ Except.ok none := by decide

/-- C4 amended: when the index entry exists but the blob is absent from the
store, read returns not-found if read_through is off, and with read_through
on it falls back to the secondary backend and returns its result. -/
theorem C4_blob_absent_amended (cfg : Config) (c : Codec) (id : String)
    (s : BState) (t : Timestamp) (hts : fetch_timestamp s id = some t)
    (hobj : get_object s (construct_s3_key cfg id t) = none) :
    get_bytes cfg c id s
      = Except.ok (if cfg.read_through then super_get_bytes s id
                   else none) := by
  by_cases hr : cfg.read_through <;>
    simp [get_bytes, read_from_bucket, hts, hobj, hr, pyOr]

/-- Witness for the amended C4 at a concrete input with read_through on. -/
theorem C4_blob_absent_amended_witness :
    get_bytes cfgRT idCodec "a" st4
      = Except.ok (if cfgRT.read_through then super_get_bytes st4 "a"
                   else none)
    ∧ super_get_bytes st4 "a" = some [7] :=
  ⟨C4_blob_absent_amended cfgRT idCodec "a" st4 t0 rfl rfl, rfl⟩

/-- C5 counterexample: the claim says write records a single current
timestamp t and derives the blob key from that same t. The code reads the
clock twice (line 74 for the index row, line 122 for the key); when the two
reads straddle midnight, the index records the first reading while the blob
is stored under the second reading's key, so no blob exists at the key
derived from the index entry's timestamp — invariant I1 fails right after
a first write with no partial failure. -/
theorem C5_single_timestamp_counterexample :
    fetch_timestamp (write_to_bucket cfg0 idCodec tEve tNew "a" [1] st0) "a"
        = some tEve
    ∧ get_object (write_to_bucket cfg0 idCodec tEve tNew "a" [1] st0)
        (construct_s3_key cfg0 "a" tEve) = none := by decide

/-- C5 amended: write records the first clock reading t1 as the id's index
entry and derives the blob key from a second clock reading t2; whenever the
two readings fall on the same calendar date (in particular when the clock
does not advance within the call), a first write of an unstored id leaves a
blob at the key derived from the id and its index entry's timestamp, as
invariant I1 asks. -/
theorem C5_single_timestamp_amended (cfg : Config) (c : Codec)
    (t1 t2 : Timestamp) (id : String) (data : Bytes) (s : BState)
    (hdate : dateOf t1 = dateOf t2)
    (habs : fetch_timestamp s id = none) :
    fetch_timestamp (set_bytes cfg c t1 t2 id data s) id = some t1
    ∧ (get_object (set_bytes cfg c t1 t2 id data s)
        (construct_s3_key cfg id t1)).isSome = true := by
  have hkey : construct_s3_key cfg id t1 = construct_s3_key cfg id t2 :=
    construct_s3_key_congr cfg id hdate
  have habs1 : assocLookup s.db id = none := habs
  by_cases hw : cfg.write_through <;>
    simp [set_bytes, write_to_bucket, insert_id_and_timestamp,
      fetch_timestamp, put_object, get_object, super_set_bytes, assocLookup,
      putKey, hw, habs1, hkey]

/-- Witness for the amended C5 at a concrete input where both clock
readings coincide. -/
theorem C5_single_timestamp_amended_witness :
    fetch_timestamp (set_bytes cfg0 idCodec t0 t0 "a" [3] st0) "a" = some t0
    ∧ (get_object (set_bytes cfg0 idCodec t0 t0 "a" [3] st0)
        (construct_s3_key cfg0 "a" t0)).isSome = true :=
  C5_single_timestamp_amended cfg0 idCodec t0 t0 "a" [3] st0 rfl rfl

/-- C6: with compression enabled, write stores the compressed bytes under
the scheme's content-encoding tag exactly when the compressed form is not
larger than the original, and otherwise stores the original bytes unchanged
with an empty content-encoding tag. -/
theorem C6_compression_guard (cfg : Config) (c : Codec) (t1 t2 : Timestamp)
    (id : String) (data : Bytes) (s : BState) (hc : cfg.compression = true) :
    get_object (write_to_bucket cfg c t1 t2 id data s)
        (construct_s3_key cfg id t2)
      = some (if (c.encode data).length ≤ data.length
              then ⟨c.encode data, "zstd"⟩ else ⟨data, ""⟩) := by
  by_cases hlen : (c.encode data).length ≤ data.length <;>
    simp [write_to_bucket, get_object, put_object, selfCompression,
      compression_strategies, assocLookup, putKey, hc, hlen]

/-- Witness for C6 at a concrete input with the identity codec, whose
output is never larger than its input. -/
theorem C6_compression_guard_witness :
    get_object (write_to_bucket cfg0 idCodec t0 t0 "a" [1, 2] st0)
        (construct_s3_key cfg0 "a" t0)
      = some (if (idCodec.encode [1, 2]).length ≤ ([1, 2] : Bytes).length
              then ⟨idCodec.encode [1, 2], "zstd"⟩ else ⟨[1, 2], ""⟩) :=
  C6_compression_guard cfg0 idCodec t0 t0 "a" [1, 2] st0 rfl

/-- C7: the claim says every delete invokes the cache-invalidation
collaborator once for the id and every delete_multi ends with one batched
notice. In the code `__delete_from_bucket` always raises the
missing-timestamp fault (the index row is removed before the lookup), so
for every configuration, id and state, `delete` errors with the
invalidation log unchanged, and so does `delete_multi` on any nonempty id
list — the collaborator is never notified. -/
theorem C7_cache_invalidation_code_bug :
    (∀ (cfg : Config) (id : String) (s : BState),
        (delete cfg id s).1
            = Except.error ("No timestamp found for ID " ++ id)
        ∧ (delete cfg id s).2.invalidations = s.invalidations)
    ∧ (∀ (cfg : Config) (x : String) (rest : List String) (s : BState),
        (delete_multi cfg (x :: rest) s).1
            = Except.error ("No timestamp found for ID " ++ x)
        ∧ (delete_multi cfg (x :: rest) s).2.invalidations
            = s.invalidations) := by
  constructor
  · intro cfg id s
    by_cases hdt : cfg.delete_through <;>
      simp [delete, delete_from_bucket, delete_id, super_delete,
        fetch_timestamp, assocLookup_removeKey_self, hdt]
  · intro cfg x rest s
    by_cases hdt : cfg.delete_through <;>
      simp [delete_multi, deleteLoop, delete_from_bucket, delete_id,
        super_delete_multi, fetch_timestamp, assocLookup_removeKey_self, hdt]

/-- C8: the metadata-index upsert inserts the (id, timestamp) row when the
id is absent and is a no-op when the id is present, never overwriting the
existing timestamp; consequently a second write of an already-indexed id
leaves the index pointing at the original timestamp while the new blob is
stored at the key derived from the new write's timestamp. -/
theorem C8_upsert_no_overwrite :
    (∀ (t : Timestamp) (id : String) (s : BState),
        fetch_timestamp s id = none →
        (insert_id_and_timestamp t id s).db = (id, t) :: s.db)
    ∧ (∀ (t t0 : Timestamp) (id : String) (s : BState),
        fetch_timestamp s id = some t0 →
        insert_id_and_timestamp t id s = s)
    ∧ (∀ (cfg : Config) (c : Codec) (ta tb t0 : Timestamp) (id : String)
        (d : Bytes) (s : BState),
        fetch_timestamp s id = some t0 →
        fetch_timestamp (write_to_bucket cfg c ta tb id d s) id = some t0
        ∧ (get_object (write_to_bucket cfg c ta tb id d s)
            (construct_s3_key cfg id tb)).isSome = true) := by
  refine ⟨?_, ?_, ?_⟩
  · intro t id s habs
    have habs1 : assocLookup s.db id = none := habs
    simp [insert_id_and_timestamp, habs1]
  · intro t t0 id s hts
    have hts1 : assocLookup s.db id = some t0 := hts
    simp [insert_id_and_timestamp, hts1]
  · intro cfg c ta tb t0 id d s hts
    have hts1 : assocLookup s.db id = some t0 := hts
    simp [write_to_bucket, insert_id_and_timestamp, fetch_timestamp,
      put_object, get_object, assocLookup, putKey, hts1]

/-- Witness for C8 at concrete inputs: a fresh insert, a conflicting
insert, and a second write of an indexed id. -/
theorem C8_upsert_no_overwrite_witness :
    (insert_id_and_timestamp t0 "x" st0).db = [("x", t0)]
    ∧ insert_id_and_timestamp tNew "x" stD1 = stD1
    ∧ fetch_timestamp (write_to_bucket cfg0 idCodec tNew tNew "x" [4] stD1)
        "x" = some t0
    ∧ (get_object (write_to_bucket cfg0 idCodec tNew tNew "x" [4] stD1)
        (construct_s3_key cfg0 "x" tNew)).isSome = true :=
  ⟨C8_upsert_no_overwrite.1 t0 "x" st0 rfl,
   C8_upsert_no_overwrite.2.1 tNew t0 "x" stD1 rfl,
   (C8_upsert_no_overwrite.2.2 cfg0 idCodec tNew tNew t0 "x" [4] stD1 rfl).1,
   (C8_upsert_no_overwrite.2.2 cfg0 idCodec tNew tNew t0 "x" [4] stD1 rfl).2⟩

/-- C9: with read_through enabled, when the primary store successfully
returns an empty byte payload for an id, the read does not return that
empty payload: the truthiness-based fallback treats it like a missing value
and returns the secondary backend's result instead. -/
theorem C9_empty_payload_fallback (cfg : Config) (c : Codec) (id : String)
    (s : BState) (hr : cfg.read_through = true)
    (hempty : read_from_bucket cfg c id s = Except.ok (some [])) :
    get_bytes cfg c id s = Except.ok (super_get_bytes s id) := by
  simp [get_bytes, hr, hempty, pyOr]

/-- Witness for C9 at a concrete input: an empty blob stored at the id's
key, with the secondary backend holding a nonempty value. -/
theorem C9_empty_payload_fallback_witness :
    get_bytes cfgRT idCodec "a" st9 = Except.ok (super_get_bytes st9 "a")
    ∧ super_get_bytes st9 "a" = some [5] :=
  ⟨C9_empty_payload_fallback cfgRT idCodec "a" st9 rfl (by decide), rfl⟩

/-- C10: when processing an id of delete_multi raises the missing-timestamp
fault — which in the code happens at the first id of any nonempty list —
the loop aborts there: the blob store is untouched, the index rows of every
other id are untouched, and the batched cache-invalidation notice is not
issued for any id of the call. -/
theorem C10_delete_multi_abort (cfg : Config) (x : String)
    (rest : List String) (s : BState) :
    (delete_multi cfg (x :: rest) s).1
        = Except.error ("No timestamp found for ID " ++ x)
    ∧ (delete_multi cfg (x :: rest) s).2.s3 = s.s3
    ∧ (delete_multi cfg (x :: rest) s).2.invalidations = s.invalidations
    ∧ ∀ id : String, id ≠ x →
        assocLookup (delete_multi cfg (x :: rest) s).2.db id
          = assocLookup s.db id := by
  by_cases hdt : cfg.delete_through <;>
    refine ⟨?_, ?_, ?_, ?_⟩ <;>
    try intro id hne
  all_goals
    simp [delete_multi, deleteLoop, delete_from_bucket, delete_id,
      super_delete_multi, fetch_timestamp, assocLookup_removeKey_self, hdt]
  · exact assocLookup_removeKey_ne s.db x id hne
  · exact assocLookup_removeKey_ne s.db x id hne

/-- Witness for C10 at a concrete input: deleting the list of "a" and "b"
in a world indexing both aborts at "a", leaves the row of "b" in place, and
issues no invalidation. -/
theorem C10_delete_multi_abort_witness :
    (delete_multi cfg0 ["a", "b"] stB).1
        = Except.error ("No timestamp found for ID " ++ "a")
    ∧ assocLookup (delete_multi cfg0 ["a", "b"] stB).2.db "b"
        = assocLookup stB.db "b"
    ∧ (delete_multi cfg0 ["a", "b"] stB).2.invalidations
        = stB.invalidations :=
  ⟨(C10_delete_multi_abort cfg0 "a" ["b"] stB).1,
   (C10_delete_multi_abort cfg0 "a" ["b"] stB).2.2.2 "b" (by decide),
   (C10_delete_multi_abort cfg0 "a" ["b"] stB).2.2.1⟩

end NodestoreS3
